import Mathlib

/-
Verification of the Linak desk controller's status-report decoder and
closed-loop move algorithm (linak-desk-control.py), as a shallow embedding.

Modelling conventions:
- A raw buffer is a List Nat of byte values (Python bytearray).
- Python's buf.hex() is modelled by bytes_hex, which maps each byte b to its
  two hex-digit VALUES [b / 16, b % 16] (the decoder only ever parses these
  digits back with int(s, 16), so digit values, not characters, are the
  faithful carrier).
- Python's int(s, 16), which raises ValueError on an empty string, is
  modelled by int_hex : List Nat -> Option Nat (none on the empty list).
- Python indexing buf[i], which raises IndexError out of range, is modelled
  by byte_at : List Nat -> Nat -> Option Nat.
- Python slicing s[a:b] is modelled by bslice.
- The classmethod decoders (Status.from_buf, StatusPositionSpeed.from_buf,
  ValidFlags.from_buf, StatusReport.from_buf) therefore return Option:
  none models an escaping exception, some a fully constructed object.
- The transport layer is external: functions take the 64-byte response
  buffer (or, for the move loop, the stream of decoded reports and the
  stream of transferred-byte counts) as explicit arguments.
-/

/-- CMD_STATUS_REPORT constant from the source (value 4). -/
def CMD_STATUS_REPORT : Nat := 4

/-- NRB_STATUS_REPORT constant from the source (value 56). -/
def NRB_STATUS_REPORT : Nat := 56

/-- LEN_STATUS_REPORT constant from the source (value 64). -/
def LEN_STATUS_REPORT : Nat := 64

/-- Model of Python bytes.hex(): each byte becomes two hex-digit values,
high nibble first. -/
def bytes_hex : List Nat → List Nat
  | [] => []
  | b :: t => b / 16 :: b % 16 :: bytes_hex t

/-- Accumulator form of base-16 parsing of a hex-digit-value list. -/
def parse_hex_acc (acc : Nat) : List Nat → Nat
  | [] => acc
  | d :: t => parse_hex_acc (acc * 16 + d) t

/-- Model of Python int(s, 16) on a nonempty valid hex string. -/
def parse_hex (l : List Nat) : Nat := parse_hex_acc 0 l

/-- Model of Python int(s, 16) including the ValueError raised on an empty
string: none on the empty list. Strings produced by bytes.hex() never
contain invalid digit characters, so emptiness is the only reachable
failure. -/
def int_hex : List Nat → Option Nat
  | [] => none
  | l => some (parse_hex l)

/-- Model of the Python slice s[a:b] (for nonnegative indices). -/
def bslice (l : List Nat) (a b : Nat) : List Nat := (l.drop a).take (b - a)

/-- Model of the Python indexing expression l[i], which raises IndexError
when out of range: none in that case. -/
def byte_at (l : List Nat) (i : Nat) : Option Nat := (l.drop i).head?

/-- Status: the four named flag booleans plus the residual low nibble,
decoded from one byte (two hex digits) by Status.from_buf. -/
structure Status where
  positionLost : Bool
  antiColision : Bool
  overloadDown : Bool
  overloadUp : Bool
  unknown : Nat
deriving DecidableEq

/-- Bit list of a byte value, most significant bit first. Models the
Python expression formatting bin(v) zero-padded on the left to 8
characters (exact for v < 256, the only values reachable from two hex
digits of a byte). -/
def bitlist8 (v : Nat) : List Bool :=
  [v.testBit 7, v.testBit 6, v.testBit 5, v.testBit 4,
   v.testBit 3, v.testBit 2, v.testBit 1, v.testBit 0]

/-- Status.from_buf from the source: buf is the 2-hex-digit slice for the
status byte; the first four bits (MSB first) are the named flags and the
second hex digit (low nibble, buf[1:]) is stored as unknown. -/
def Status.from_buf (buf : List Nat) : Option Status :=
  (int_hex buf).bind fun v =>
  (int_hex (buf.drop 1)).map fun u =>
    { positionLost := (bitlist8 v).getD 0 false
      antiColision := (bitlist8 v).getD 1 false
      overloadDown := (bitlist8 v).getD 2 false
      overloadUp := (bitlist8 v).getD 3 false
      unknown := u }

/-- Status value decoded from byte b: what Status.from_buf produces on the
two hex digits of b. -/
def statusOfByte (b : Nat) : Status :=
  { positionLost := (bitlist8 b).getD 0 false
    antiColision := (bitlist8 b).getD 1 false
    overloadDown := (bitlist8 b).getD 2 false
    overloadUp := (bitlist8 b).getD 3 false
    unknown := b % 16 }

/-- StatusPositionSpeed: one position/status/speed reference sample. -/
structure StatusPositionSpeed where
  pos : Nat
  status : Status
  speed : Nat
deriving DecidableEq

/-- StatusPositionSpeed.from_buf from the source: buf is the 8-hex-digit
slice of one sample; pos = int(buf[2:4] + buf[:2], 16) (byte-swapped),
status from buf[4:6], speed = int(buf[6:8], 16). -/
def StatusPositionSpeed.from_buf (buf : List Nat) : Option StatusPositionSpeed :=
  (int_hex (bslice buf 2 4 ++ bslice buf 0 2)).bind fun pos =>
  (Status.from_buf (bslice buf 4 6)).bind fun status =>
  (int_hex (bslice buf 6 8)).map fun speed =>
    { pos := pos, status := status, speed := speed }

/-- ValidFlags: the sixteen named booleans of the valid-flag word. -/
structure ValidFlags where
  ID00_Ref1_pos_stat_speed : Bool
  ID01_Ref2_pos_stat_speed : Bool
  ID02_Ref3_pos_stat_speed : Bool
  ID03_Ref4_pos_stat_speed : Bool
  ID10_Ref1_controlInput : Bool
  ID11_Ref2_controlInput : Bool
  ID12_Ref3_controlInput : Bool
  ID13_Ref4_controlInput : Bool
  ID04_Ref5_pos_stat_speed : Bool
  ID28_Diagnostic : Bool
  ID05_Ref6_pos_stat_speed : Bool
  ID37_Handset1command : Bool
  ID38_Handset2command : Bool
  ID06_Ref7_pos_stat_speed : Bool
  ID07_Ref8_pos_stat_speed : Bool
  unknown : Bool
deriving DecidableEq

/-- Bit list of a 16-bit word, most significant bit first. Models
bin(v)[2:].zfill(16) (exact for v < 65536, the only values reachable from
four hex digits). -/
def bitlist16 (v : Nat) : List Bool :=
  [v.testBit 15, v.testBit 14, v.testBit 13, v.testBit 12,
   v.testBit 11, v.testBit 10, v.testBit 9, v.testBit 8,
   v.testBit 7, v.testBit 6, v.testBit 5, v.testBit 4,
   v.testBit 3, v.testBit 2, v.testBit 1, v.testBit 0]

/-- ValidFlags assignment loop from the source: attr[idx] is set from the
idx-th character (MSB first) of the zero-padded 16-bit binary string. -/
def validFlagsOfWord (v : Nat) : ValidFlags :=
  { ID00_Ref1_pos_stat_speed := (bitlist16 v).getD 0 false
    ID01_Ref2_pos_stat_speed := (bitlist16 v).getD 1 false
    ID02_Ref3_pos_stat_speed := (bitlist16 v).getD 2 false
    ID03_Ref4_pos_stat_speed := (bitlist16 v).getD 3 false
    ID10_Ref1_controlInput := (bitlist16 v).getD 4 false
    ID11_Ref2_controlInput := (bitlist16 v).getD 5 false
    ID12_Ref3_controlInput := (bitlist16 v).getD 6 false
    ID13_Ref4_controlInput := (bitlist16 v).getD 7 false
    ID04_Ref5_pos_stat_speed := (bitlist16 v).getD 8 false
    ID28_Diagnostic := (bitlist16 v).getD 9 false
    ID05_Ref6_pos_stat_speed := (bitlist16 v).getD 10 false
    ID37_Handset1command := (bitlist16 v).getD 11 false
    ID38_Handset2command := (bitlist16 v).getD 12 false
    ID06_Ref7_pos_stat_speed := (bitlist16 v).getD 13 false
    ID07_Ref8_pos_stat_speed := (bitlist16 v).getD 14 false
    unknown := (bitlist16 v).getD 15 false }

/-- ValidFlags.from_buf from the source: buf is the 4-hex-digit slice
raw[4:8]; the word is parsed base-16 and split into bits MSB first. -/
def ValidFlags.from_buf (buf : List Nat) : Option ValidFlags :=
  (int_hex buf).map validFlagsOfWord

/-- StatusReport: the decoded 64-byte status report. The diagnostic,
undefined1 and undefined2 fields are kept as the raw hex-digit slices the
source stores (raw[64:80], raw[80:84], raw[114:]). -/
structure StatusReport where
  featureRaportID : Nat
  numberOfBytes : Nat
  validFlag : ValidFlags
  ref1 : StatusPositionSpeed
  ref2 : StatusPositionSpeed
  ref3 : StatusPositionSpeed
  ref4 : StatusPositionSpeed
  ref1cnt : Nat
  ref2cnt : Nat
  ref3cnt : Nat
  ref4cnt : Nat
  ref5 : StatusPositionSpeed
  diagnostic : List Nat
  undefined1 : List Nat
  handset1 : Nat
  handset2 : Nat
  ref6 : StatusPositionSpeed
  ref7 : StatusPositionSpeed
  ref8 : StatusPositionSpeed
  undefined2 : List Nat
deriving DecidableEq

/-- StatusReport.from_buf from the source, slice for slice: raw is the hex
digit stream of the 64-byte buffer and every field reads the exact digit
ranges of the Python code. -/
def StatusReport.from_buf (buf : List Nat) : Option StatusReport :=
  let raw := bytes_hex buf
  (byte_at buf 0).bind fun featureRaportID =>
  (byte_at buf 1).bind fun numberOfBytes =>
  (ValidFlags.from_buf (bslice raw 4 8)).bind fun validFlag =>
  (StatusPositionSpeed.from_buf (bslice raw 8 16)).bind fun ref1 =>
  (StatusPositionSpeed.from_buf (bslice raw 16 24)).bind fun ref2 =>
  (StatusPositionSpeed.from_buf (bslice raw 24 32)).bind fun ref3 =>
  (StatusPositionSpeed.from_buf (bslice raw 32 40)).bind fun ref4 =>
  (int_hex (bslice raw 42 44 ++ bslice raw 40 42)).bind fun ref1cnt =>
  (int_hex (bslice raw 46 48 ++ bslice raw 44 46)).bind fun ref2cnt =>
  (int_hex (bslice raw 50 52 ++ bslice raw 48 50)).bind fun ref3cnt =>
  (int_hex (bslice raw 54 56 ++ bslice raw 52 54)).bind fun ref4cnt =>
  (StatusPositionSpeed.from_buf (bslice raw 56 64)).bind fun ref5 =>
  (int_hex (bslice raw 86 88 ++ bslice raw 84 86)).bind fun handset1 =>
  (int_hex (bslice raw 88 90 ++ bslice raw 86 88)).bind fun handset2 =>
  (StatusPositionSpeed.from_buf (bslice raw 90 98)).bind fun ref6 =>
  (StatusPositionSpeed.from_buf (bslice raw 98 106)).bind fun ref7 =>
  (StatusPositionSpeed.from_buf (bslice raw 106 114)).map fun ref8 =>
    { featureRaportID := featureRaportID
      numberOfBytes := numberOfBytes
      validFlag := validFlag
      ref1 := ref1, ref2 := ref2, ref3 := ref3, ref4 := ref4
      ref1cnt := ref1cnt, ref2cnt := ref2cnt
      ref3cnt := ref3cnt, ref4cnt := ref4cnt
      ref5 := ref5
      diagnostic := bslice raw 64 80
      undefined1 := bslice raw 80 84
      handset1 := handset1, handset2 := handset2
      ref6 := ref6, ref7 := ref7, ref8 := ref8
      undefined2 := raw.drop 114 }

/-- Explicit byte-level form of the report StatusReport.from_buf decodes
from a 64-byte buffer (used to state and prove the evaluation lemma). -/
def reportOf (buf : List Nat) : StatusReport :=
  { featureRaportID := buf.getD 0 0
    numberOfBytes := buf.getD 1 0
    validFlag := validFlagsOfWord (buf.getD 2 0 * 256 + buf.getD 3 0)
    ref1 := { pos := buf.getD 5 0 * 256 + buf.getD 4 0
              status := statusOfByte (buf.getD 6 0), speed := buf.getD 7 0 }
    ref2 := { pos := buf.getD 9 0 * 256 + buf.getD 8 0
              status := statusOfByte (buf.getD 10 0), speed := buf.getD 11 0 }
    ref3 := { pos := buf.getD 13 0 * 256 + buf.getD 12 0
              status := statusOfByte (buf.getD 14 0), speed := buf.getD 15 0 }
    ref4 := { pos := buf.getD 17 0 * 256 + buf.getD 16 0
              status := statusOfByte (buf.getD 18 0), speed := buf.getD 19 0 }
    ref1cnt := buf.getD 21 0 * 256 + buf.getD 20 0
    ref2cnt := buf.getD 23 0 * 256 + buf.getD 22 0
    ref3cnt := buf.getD 25 0 * 256 + buf.getD 24 0
    ref4cnt := buf.getD 27 0 * 256 + buf.getD 26 0
    ref5 := { pos := buf.getD 29 0 * 256 + buf.getD 28 0
              status := statusOfByte (buf.getD 30 0), speed := buf.getD 31 0 }
    diagnostic := bytes_hex (bslice buf 32 40)
    undefined1 := bytes_hex (bslice buf 40 42)
    handset1 := buf.getD 43 0 * 256 + buf.getD 42 0
    handset2 := buf.getD 44 0 * 256 + buf.getD 43 0
    ref6 := { pos := buf.getD 46 0 * 256 + buf.getD 45 0
              status := statusOfByte (buf.getD 47 0), speed := buf.getD 48 0 }
    ref7 := { pos := buf.getD 50 0 * 256 + buf.getD 49 0
              status := statusOfByte (buf.getD 51 0), speed := buf.getD 52 0 }
    ref8 := { pos := buf.getD 54 0 * 256 + buf.getD 53 0
              status := statusOfByte (buf.getD 55 0), speed := buf.getD 56 0 }
    undefined2 := bytes_hex (buf.drop 57) }

/-- Error kinds of the decode pipeline: protocolMismatch models the
exception raised by _get_status_report when the response's leading byte
is not CMD_STATUS_REPORT; valueError models an escaping ValueError from
int() inside StatusReport.from_buf. -/
inductive DecodeError where
  | protocolMismatch
  | valueError
deriving DecidableEq

/-- Response check of LinakController._get_status_report: the transport's
response buffer is returned unchanged unless its byte 0 differs from
CMD_STATUS_REPORT, in which case the method raises. -/
def get_status_report (buf : List Nat) : Except DecodeError (List Nat) :=
  if buf.getD 0 0 == CMD_STATUS_REPORT then .ok buf
  else .error .protocolMismatch

/-- Composite used at every call site (move, get_height): fetch the status
report, which validates byte 0, then decode it with
StatusReport.from_buf. -/
def get_status_and_decode (buf : List Nat) : Except DecodeError StatusReport :=
  match get_status_report buf with
  | .error e => .error e
  | .ok b =>
      match StatusReport.from_buf b with
      | some r => .ok r
      | none => .error .valueError

/-- LinakController.get_height: one status fetch and decode; returns the
raw ref1 position and the position divided by 98.0. Python float division
is modelled by exact rational division. -/
def get_height (buf : List Nat) : Except DecodeError (Nat × ℚ) :=
  match get_status_and_decode buf with
  | .error e => .error e
  | .ok r => .ok (r.ref1.pos, (r.ref1.pos : ℚ) / 98)

/-- LinakController._is_status_report_not_ready: true iff byte 0 is
CMD_STATUS_REPORT, byte 1 is NRB_STATUS_REPORT, and every byte at an
index in range(2, LEN_STATUS_REPORT - 5) is zero. -/
def is_status_report_not_ready (buf : List Nat) : Bool :=
  if buf.getD 0 0 != CMD_STATUS_REPORT || buf.getD 1 0 != NRB_STATUS_REPORT then
    false
  else
    (List.range' 2 (LEN_STATUS_REPORT - 5 - 2)).all fun i => buf.getD i 0 == 0

/-- Retry-count update of one iteration of LinakController.move: decrement
when the device's own tracking error is within epsilon, or the position
moved at most epsilon since the previous poll, or it equals the previous
poll's position; otherwise reset to max_retry = 3. epsilon = 13 as in the
source. -/
def retry_step (r : StatusReport) (prev retry : Nat) : Nat :=
  if ((r.ref1cnt : Int) - (r.ref1.pos : Int)).natAbs ≤ 13
      || ((prev : Int) - (r.ref1.pos : Int)).natAbs ≤ 13
      || prev == r.ref1.pos then
    retry - 1
  else
    3

/-- Loop of LinakController.move over the stream of decoded status
reports. sends gives the transferred-byte count the transport reports for
the _move command of each iteration; the source discards that value, and
the model binds it to a dead local exactly as the source does. The
iteration terminates when the updated retry count is 0, returning whether
the last polled position is within epsilon of the target; if the finite
report stream is exhausted first the result is none (the Python loop
would still be running). -/
def move_loop (target : Nat) (sends : Nat → Nat) :
    List StatusReport → Nat → Nat → Nat → Option Bool
  | [], _, _, _ => none
  | r :: rest, i, retry, prev =>
    let _amount_ok := sends i == LEN_STATUS_REPORT
    let retry' := retry_step r prev retry
    if retry' == 0 then
      some (decide (((r.ref1.pos : Int) - (target : Int)).natAbs ≤ 13))
    else
      move_loop target sends rest (i + 1) retry' r.ref1.pos

/-- LinakController.move: retry_count = max_retry = 3, prev_height = 0 at
entry. -/
def move (target : Nat) (sends : Nat → Nat) (polls : List StatusReport) :
    Option Bool :=
  move_loop target sends polls 0 3 0

/-- Report with the given ref1 position and ref1 counter and all other
fields blank, used for concrete loop scenarios. -/
def mkReport (pos cnt : Nat) : StatusReport :=
  { featureRaportID := CMD_STATUS_REPORT
    numberOfBytes := NRB_STATUS_REPORT
    validFlag := validFlagsOfWord 0
    ref1 := { pos := pos, status := statusOfByte 0, speed := 0 }
    ref2 := { pos := 0, status := statusOfByte 0, speed := 0 }
    ref3 := { pos := 0, status := statusOfByte 0, speed := 0 }
    ref4 := { pos := 0, status := statusOfByte 0, speed := 0 }
    ref1cnt := cnt, ref2cnt := 0, ref3cnt := 0, ref4cnt := 0
    ref5 := { pos := 0, status := statusOfByte 0, speed := 0 }
    diagnostic := [], undefined1 := []
    handset1 := 0, handset2 := 0
    ref6 := { pos := 0, status := statusOfByte 0, speed := 0 }
    ref7 := { pos := 0, status := statusOfByte 0, speed := 0 }
    ref8 := { pos := 0, status := statusOfByte 0, speed := 0 }
    undefined2 := [] }

/-- Sustained-movement predicate on a report stream: starting from
previous position prev, every report's device tracking error exceeds
epsilon, its position differs from the previous position by more than
epsilon, and it does not equal the previous position (the settled test of
retry_step fails at every iteration). -/
def sustained_movement (prev : Nat) : List StatusReport → Bool
  | [] => true
  | r :: rest =>
    decide (13 < ((r.ref1cnt : Int) - (r.ref1.pos : Int)).natAbs)
      && decide (13 < ((prev : Int) - (r.ref1.pos : Int)).natAbs)
      && (r.ref1.pos != prev)
      && sustained_movement r.ref1.pos rest

/-- Field-layout statement for the upper part of the report (claim C2,
amended to the offsets the code actually reads): diagnostic holds the hex
digits of bytes 32 to 39, undefined1 those of bytes 40 and 41, handset1
is the byte swap of bytes 42 and 43, handset2 the byte swap of bytes 43
and 44 (overlapping handset1 by one byte), and ref6, ref7, ref8 are the
4-byte samples at offsets 45 to 48, 49 to 52 and 53 to 56. -/
def fieldLayoutOk (buf : List Nat) : Prop :=
  ∃ r, StatusReport.from_buf buf = some r ∧
    r.diagnostic = bytes_hex (bslice buf 32 40) ∧
    r.undefined1 = bytes_hex (bslice buf 40 42) ∧
    r.handset1 = buf.getD 43 0 * 256 + buf.getD 42 0 ∧
    r.handset2 = buf.getD 44 0 * 256 + buf.getD 43 0 ∧
    r.ref6 = { pos := buf.getD 46 0 * 256 + buf.getD 45 0
               status := statusOfByte (buf.getD 47 0)
               speed := buf.getD 48 0 } ∧
    r.ref7 = { pos := buf.getD 50 0 * 256 + buf.getD 49 0
               status := statusOfByte (buf.getD 51 0)
               speed := buf.getD 52 0 } ∧
    r.ref8 = { pos := buf.getD 54 0 * 256 + buf.getD 53 0
               status := statusOfByte (buf.getD 55 0)
               speed := buf.getD 56 0 }

/-- Byte-swap statement for the sixteen-bit fields (claim C5): every
ref sample position and every ref counter equals the base-16 parse of the
second encoded byte's hex digits concatenated before the first encoded
byte's hex digits, for the two bytes the decoder reads that field from. -/
def swapRuleOk (buf : List Nat) : Prop :=
  ∃ r, StatusReport.from_buf buf = some r ∧
    r.ref1.pos = parse_hex (bytes_hex [buf.getD 5 0] ++ bytes_hex [buf.getD 4 0]) ∧
    r.ref2.pos = parse_hex (bytes_hex [buf.getD 9 0] ++ bytes_hex [buf.getD 8 0]) ∧
    r.ref3.pos = parse_hex (bytes_hex [buf.getD 13 0] ++ bytes_hex [buf.getD 12 0]) ∧
    r.ref4.pos = parse_hex (bytes_hex [buf.getD 17 0] ++ bytes_hex [buf.getD 16 0]) ∧
    r.ref5.pos = parse_hex (bytes_hex [buf.getD 29 0] ++ bytes_hex [buf.getD 28 0]) ∧
    r.ref6.pos = parse_hex (bytes_hex [buf.getD 46 0] ++ bytes_hex [buf.getD 45 0]) ∧
    r.ref7.pos = parse_hex (bytes_hex [buf.getD 50 0] ++ bytes_hex [buf.getD 49 0]) ∧
    r.ref8.pos = parse_hex (bytes_hex [buf.getD 54 0] ++ bytes_hex [buf.getD 53 0]) ∧
    r.ref1cnt = parse_hex (bytes_hex [buf.getD 21 0] ++ bytes_hex [buf.getD 20 0]) ∧
    r.ref2cnt = parse_hex (bytes_hex [buf.getD 23 0] ++ bytes_hex [buf.getD 22 0]) ∧
    r.ref3cnt = parse_hex (bytes_hex [buf.getD 25 0] ++ bytes_hex [buf.getD 24 0]) ∧
    r.ref4cnt = parse_hex (bytes_hex [buf.getD 27 0] ++ bytes_hex [buf.getD 26 0])

/-- Characterization of the not-ready signature on a 64-byte buffer
(claim C6): the test succeeds exactly on byte 0 = 4, byte 1 = 56 and
bytes 2 to 58 all zero, and setting any single byte of that range to a
non-zero value makes it fail. -/
def notReadySignatureOk (buf : List Nat) : Prop :=
  (is_status_report_not_ready buf = true ↔
    (buf.getD 0 0 = 4 ∧ buf.getD 1 0 = 56 ∧
      ∀ i, 2 ≤ i → i < 59 → buf.getD i 0 = 0)) ∧
  (∀ i v, 2 ≤ i → i < 59 → v ≠ 0 →
    is_status_report_not_ready (buf.set i v) = false)

/-- Transfer counts modelling a transport that always reports the full
64 bytes transferred (used in concrete scenarios). -/
def constSends : Nat → Nat := fun _ => LEN_STATUS_REPORT

/-- Concrete 64-byte response whose decoded ref1 position is 4900:
byte 0 is the status command id and bytes 4, 5 hold 4900 byte-swapped. -/
def heightBuf : List Nat := 4 :: 56 :: 0 :: 0 :: 36 :: 19 :: List.replicate 58 0

theorem obind_some {α β : Type} (a : α) (f : α → Option β) :
    (some a).bind f = f a := rfl

theorem omap_some {α β : Type} (a : α) (f : α → β) :
    (some a).map f = some (f a) := rfl

theorem drop_eq_getD_cons : ∀ (l : List Nat) (a : Nat), a < l.length →
    l.drop a = l.getD a 0 :: l.drop (a + 1)
  | x :: t, 0, _ => rfl
  | x :: t, a + 1, h => by
      simp only [List.drop_succ_cons, List.getD_cons_succ]
      exact drop_eq_getD_cons t a (by simpa using h)

theorem byte_at_eq (l : List Nat) (i : Nat) (h : i < l.length) :
    byte_at l i = some (l.getD i 0) := by
  unfold byte_at
  rw [drop_eq_getD_cons l i h]
  rfl

theorem bslice_cons (l : List Nat) (a b : Nat) (h : a < l.length) (hab : a < b) :
    bslice l a b = l.getD a 0 :: bslice l (a + 1) b := by
  unfold bslice
  rw [drop_eq_getD_cons l a h, show b - a = (b - (a + 1)) + 1 from by omega,
    List.take_succ_cons]

theorem bslice_eq_map_range (l : List Nat) :
    ∀ (n a : Nat), a + n ≤ l.length →
      bslice l a (a + n) = (List.range n).map (fun k => l.getD (a + k) 0) := by
  intro n
  induction n with
  | zero => intro a h; simp [bslice]
  | succ n ih =>
      intro a h
      rw [bslice_cons l a (a + (n + 1)) (by omega) (by omega),
        show a + (n + 1) = (a + 1) + n from by omega, ih (a + 1) (by omega),
        List.range_succ_eq_map n]
      simp only [List.map_cons, List.map_map, Nat.add_zero]
      congr 1
      apply List.map_congr_left
      intro k hk
      simp only [Function.comp_apply]
      congr 1
      omega

theorem bytes_hex_drop : ∀ (l : List Nat) (i : Nat),
    (bytes_hex l).drop (2 * i) = bytes_hex (l.drop i)
  | l, 0 => by simp
  | [], i + 1 => by simp [bytes_hex]
  | b :: t, i + 1 => by
      rw [show 2 * (i + 1) = (2 * i + 1) + 1 from by omega]
      simp only [bytes_hex, List.drop_succ_cons]
      exact bytes_hex_drop t i

theorem bytes_hex_take : ∀ (l : List Nat) (i : Nat),
    (bytes_hex l).take (2 * i) = bytes_hex (l.take i)
  | l, 0 => by simp [bytes_hex]
  | [], i + 1 => by simp [bytes_hex]
  | b :: t, i + 1 => by
      rw [show 2 * (i + 1) = (2 * i + 1) + 1 from by omega]
      simp only [bytes_hex, List.take_succ_cons]
      rw [bytes_hex_take t i]

theorem bslice_hex (l : List Nat) (i j : Nat) :
    bslice (bytes_hex l) (2 * i) (2 * j) = bytes_hex (bslice l i j) := by
  unfold bslice
  rw [bytes_hex_drop l i, show 2 * j - 2 * i = 2 * (j - i) from by omega,
    bytes_hex_take (l.drop i) (j - i)]

theorem parse_hex_pair (x y : Nat) :
    parse_hex (bytes_hex [x] ++ bytes_hex [y]) = x * 256 + y := by
  have h : parse_hex (bytes_hex [x] ++ bytes_hex [y]) =
      (((0 * 16 + x / 16) * 16 + x % 16) * 16 + y / 16) * 16 + y % 16 := rfl
  rw [h]; omega

theorem int_hex_pair (x y : Nat) :
    int_hex (bytes_hex [x] ++ bytes_hex [y]) = some (x * 256 + y) := by
  have h : int_hex (bytes_hex [x] ++ bytes_hex [y]) =
      some ((((0 * 16 + x / 16) * 16 + x % 16) * 16 + y / 16) * 16 + y % 16) := rfl
  rw [h]; congr 1; omega

theorem int_hex_single (x : Nat) : int_hex (bytes_hex [x]) = some x := by
  have h : int_hex (bytes_hex [x]) = some ((0 * 16 + x / 16) * 16 + x % 16) := rfl
  rw [h]; congr 1; omega

theorem status_from_buf_hex (b : Nat) :
    Status.from_buf (bytes_hex [b]) = some (statusOfByte b) := by
  have h : Status.from_buf (bytes_hex [b]) =
      some { positionLost := (bitlist8 ((0 * 16 + b / 16) * 16 + b % 16)).getD 0 false
             antiColision := (bitlist8 ((0 * 16 + b / 16) * 16 + b % 16)).getD 1 false
             overloadDown := (bitlist8 ((0 * 16 + b / 16) * 16 + b % 16)).getD 2 false
             overloadUp := (bitlist8 ((0 * 16 + b / 16) * 16 + b % 16)).getD 3 false
             unknown := 0 * 16 + b % 16 } := rfl
  rw [h, show (0 * 16 + b / 16) * 16 + b % 16 = b from by omega]
  simp [statusOfByte]

theorem validflags_from_buf_hex (x y : Nat) :
    ValidFlags.from_buf (bytes_hex [x, y]) = some (validFlagsOfWord (x * 256 + y)) := by
  have h : ValidFlags.from_buf (bytes_hex [x, y]) =
      some (validFlagsOfWord
        ((((0 * 16 + x / 16) * 16 + x % 16) * 16 + y / 16) * 16 + y % 16)) := rfl
  rw [h]
  congr 1
  congr 1
  omega

theorem sps_from_buf_hex (b0 b1 b2 b3 : Nat) :
    StatusPositionSpeed.from_buf (bytes_hex [b0, b1, b2, b3]) =
      some { pos := b1 * 256 + b0, status := statusOfByte b2, speed := b3 } := by
  have e1 : bslice (bytes_hex [b0, b1, b2, b3]) 2 4 ++ bslice (bytes_hex [b0, b1, b2, b3]) 0 2
      = bytes_hex [b1] ++ bytes_hex [b0] := rfl
  have e2 : bslice (bytes_hex [b0, b1, b2, b3]) 4 6 = bytes_hex [b2] := rfl
  have e3 : bslice (bytes_hex [b0, b1, b2, b3]) 6 8 = bytes_hex [b3] := rfl
  simp only [StatusPositionSpeed.from_buf, e1, e2, e3, int_hex_pair, int_hex_single,
    status_from_buf_hex, obind_some, omap_some]

theorem from_buf_eq (buf : List Nat) (h : buf.length = 64) :
    StatusReport.from_buf buf = some (reportOf buf) := by
  have hb0 : byte_at buf 0 = some (buf.getD 0 0) := byte_at_eq buf 0 (by omega)
  have hb1 : byte_at buf 1 = some (buf.getD 1 0) := byte_at_eq buf 1 (by omega)
  have e04 : bslice (bytes_hex buf) 4 8 = bytes_hex (bslice buf 2 4) := bslice_hex buf 2 4
  have e08 : bslice (bytes_hex buf) 8 16 = bytes_hex (bslice buf 4 8) := bslice_hex buf 4 8
  have e16 : bslice (bytes_hex buf) 16 24 = bytes_hex (bslice buf 8 12) := bslice_hex buf 8 12
  have e24 : bslice (bytes_hex buf) 24 32 = bytes_hex (bslice buf 12 16) := bslice_hex buf 12 16
  have e32 : bslice (bytes_hex buf) 32 40 = bytes_hex (bslice buf 16 20) := bslice_hex buf 16 20
  have e40 : bslice (bytes_hex buf) 40 42 = bytes_hex (bslice buf 20 21) := bslice_hex buf 20 21
  have e42 : bslice (bytes_hex buf) 42 44 = bytes_hex (bslice buf 21 22) := bslice_hex buf 21 22
  have e44 : bslice (bytes_hex buf) 44 46 = bytes_hex (bslice buf 22 23) := bslice_hex buf 22 23
  have e46 : bslice (bytes_hex buf) 46 48 = bytes_hex (bslice buf 23 24) := bslice_hex buf 23 24
  have e48 : bslice (bytes_hex buf) 48 50 = bytes_hex (bslice buf 24 25) := bslice_hex buf 24 25
  have e50 : bslice (bytes_hex buf) 50 52 = bytes_hex (bslice buf 25 26) := bslice_hex buf 25 26
  have e52 : bslice (bytes_hex buf) 52 54 = bytes_hex (bslice buf 26 27) := bslice_hex buf 26 27
  have e54 : bslice (bytes_hex buf) 54 56 = bytes_hex (bslice buf 27 28) := bslice_hex buf 27 28
  have e56 : bslice (bytes_hex buf) 56 64 = bytes_hex (bslice buf 28 32) := bslice_hex buf 28 32
  have e64 : bslice (bytes_hex buf) 64 80 = bytes_hex (bslice buf 32 40) := bslice_hex buf 32 40
  have e80 : bslice (bytes_hex buf) 80 84 = bytes_hex (bslice buf 40 42) := bslice_hex buf 40 42
  have e84 : bslice (bytes_hex buf) 84 86 = bytes_hex (bslice buf 42 43) := bslice_hex buf 42 43
  have e86 : bslice (bytes_hex buf) 86 88 = bytes_hex (bslice buf 43 44) := bslice_hex buf 43 44
  have e88 : bslice (bytes_hex buf) 88 90 = bytes_hex (bslice buf 44 45) := bslice_hex buf 44 45
  have e90 : bslice (bytes_hex buf) 90 98 = bytes_hex (bslice buf 45 49) := bslice_hex buf 45 49
  have e98 : bslice (bytes_hex buf) 98 106 = bytes_hex (bslice buf 49 53) := bslice_hex buf 49 53
  have e106 : bslice (bytes_hex buf) 106 114 = bytes_hex (bslice buf 53 57) := bslice_hex buf 53 57
  have e114 : (bytes_hex buf).drop 114 = bytes_hex (buf.drop 57) := bytes_hex_drop buf 57
  have g2 : bslice buf 2 4 = [buf.getD 2 0, buf.getD 3 0] :=
    (bslice_eq_map_range buf 2 2 (by omega)).trans rfl
  have g4 : bslice buf 4 8 = [buf.getD 4 0, buf.getD 5 0, buf.getD 6 0, buf.getD 7 0] :=
    (bslice_eq_map_range buf 4 4 (by omega)).trans rfl
  have g8 : bslice buf 8 12 = [buf.getD 8 0, buf.getD 9 0, buf.getD 10 0, buf.getD 11 0] :=
    (bslice_eq_map_range buf 4 8 (by omega)).trans rfl
  have g12 : bslice buf 12 16 = [buf.getD 12 0, buf.getD 13 0, buf.getD 14 0, buf.getD 15 0] :=
    (bslice_eq_map_range buf 4 12 (by omega)).trans rfl
  have g16 : bslice buf 16 20 = [buf.getD 16 0, buf.getD 17 0, buf.getD 18 0, buf.getD 19 0] :=
    (bslice_eq_map_range buf 4 16 (by omega)).trans rfl
  have s20 : bslice buf 20 21 = [buf.getD 20 0] :=
    (bslice_eq_map_range buf 1 20 (by omega)).trans rfl
  have s21 : bslice buf 21 22 = [buf.getD 21 0] :=
    (bslice_eq_map_range buf 1 21 (by omega)).trans rfl
  have s22 : bslice buf 22 23 = [buf.getD 22 0] :=
    (bslice_eq_map_range buf 1 22 (by omega)).trans rfl
  have s23 : bslice buf 23 24 = [buf.getD 23 0] :=
    (bslice_eq_map_range buf 1 23 (by omega)).trans rfl
  have s24 : bslice buf 24 25 = [buf.getD 24 0] :=
    (bslice_eq_map_range buf 1 24 (by omega)).trans rfl
  have s25 : bslice buf 25 26 = [buf.getD 25 0] :=
    (bslice_eq_map_range buf 1 25 (by omega)).trans rfl
  have s26 : bslice buf 26 27 = [buf.getD 26 0] :=
    (bslice_eq_map_range buf 1 26 (by omega)).trans rfl
  have s27 : bslice buf 27 28 = [buf.getD 27 0] :=
    (bslice_eq_map_range buf 1 27 (by omega)).trans rfl
  have g28 : bslice buf 28 32 = [buf.getD 28 0, buf.getD 29 0, buf.getD 30 0, buf.getD 31 0] :=
    (bslice_eq_map_range buf 4 28 (by omega)).trans rfl
  have s42 : bslice buf 42 43 = [buf.getD 42 0] :=
    (bslice_eq_map_range buf 1 42 (by omega)).trans rfl
  have s43 : bslice buf 43 44 = [buf.getD 43 0] :=
    (bslice_eq_map_range buf 1 43 (by omega)).trans rfl
  have s44 : bslice buf 44 45 = [buf.getD 44 0] :=
    (bslice_eq_map_range buf 1 44 (by omega)).trans rfl
  have g45 : bslice buf 45 49 = [buf.getD 45 0, buf.getD 46 0, buf.getD 47 0, buf.getD 48 0] :=
    (bslice_eq_map_range buf 4 45 (by omega)).trans rfl
  have g49 : bslice buf 49 53 = [buf.getD 49 0, buf.getD 50 0, buf.getD 51 0, buf.getD 52 0] :=
    (bslice_eq_map_range buf 4 49 (by omega)).trans rfl
  have g53 : bslice buf 53 57 = [buf.getD 53 0, buf.getD 54 0, buf.getD 55 0, buf.getD 56 0] :=
    (bslice_eq_map_range buf 4 53 (by omega)).trans rfl
  simp only [StatusReport.from_buf, hb0, hb1, e04, e08, e16, e24, e32, e40, e42, e44,
    e46, e48, e50, e52, e54, e56, e64, e80, e84, e86, e88, e90, e98, e106, e114,
    g2, g4, g8, g12, g16, s20, s21, s22, s23, s24, s25, s26, s27, g28,
    s42, s43, s44, g45, g49, g53,
    validflags_from_buf_hex, sps_from_buf_hex, int_hex_pair,
    obind_some, omap_some, reportOf]

theorem move_loop_settled (target : Nat) (sends : Nat → Nat) :
    ∀ (polls : List StatusReport) (i retry : Nat), 1 ≤ retry →
      retry ≤ polls.length → (∀ r ∈ polls, r.ref1.pos = target) →
      move_loop target sends polls i retry target = some true := by
  intro polls
  induction polls with
  | nil => intro i retry h1 h2 _; simp at h2; omega
  | cons r rest ih =>
      intro i retry h1 h2 hall
      have hr : r.ref1.pos = target := hall r (by simp)
      simp only [move_loop, retry_step, hr, beq_self_eq_true, Bool.or_true]
      by_cases h0 : retry - 1 = 0
      · simp [h0]
      · have hge : 1 ≤ retry - 1 := by omega
        have hlen : retry - 1 ≤ rest.length := by simp at h2; omega
        simp only [h0, if_neg, beq_iff_eq, if_false]
        rw [if_neg (by simpa using h0)]
        exact ih (i + 1) (retry - 1) hge hlen (fun x hx => hall x (by simp [hx]))

theorem move_loop_sustained (target : Nat) (sends : Nat → Nat) :
    ∀ (polls : List StatusReport) (prev i retry : Nat),
      sustained_movement prev polls = true →
      move_loop target sends polls i retry prev = none := by
  intro polls
  induction polls with
  | nil => intro prev i retry _; rfl
  | cons r rest ih =>
      intro prev i retry hs
      simp only [sustained_movement, Bool.and_eq_true, decide_eq_true_eq,
        bne_iff_ne, ne_eq] at hs
      obtain ⟨⟨⟨h1, h2⟩, h3⟩, h4⟩ := hs
      have c1 : ¬(((r.ref1cnt : Int) - (r.ref1.pos : Int)).natAbs ≤ 13) := by omega
      have c2 : ¬(((prev : Int) - (r.ref1.pos : Int)).natAbs ≤ 13) := by omega
      have c3 : (prev == r.ref1.pos) = false := by
        simp only [beq_eq_false_iff_ne, ne_eq]
        exact fun e => h3 e.symm
      simp only [move_loop, retry_step, c1, c2, c3, decide_eq_true_eq,
        if_neg, decide_False, Bool.or_self, Bool.false_or, Bool.or_false,
        decide_eq_false c1, decide_eq_false c2]
      rw [if_neg (by simp [c1, c2, c3])]
      rw [if_neg (by decide)]
      exact ih r.ref1.pos (i + 1) 3 h4

theorem move_loop_sends_irrel (target : Nat) (s1 s2 : Nat → Nat) :
    ∀ (polls : List StatusReport) (i1 i2 retry prev : Nat),
      move_loop target s1 polls i1 retry prev = move_loop target s2 polls i2 retry prev := by
  intro polls
  induction polls with
  | nil => intro i1 i2 retry prev; rfl
  | cons r rest ih =>
      intro i1 i2 retry prev
      simp only [move_loop]
      by_cases hc : retry_step r prev retry = 0
      · simp [hc]
      · rw [if_neg (by simp [hc]), if_neg (by simp [hc])]
        exact ih (i1 + 1) (i2 + 1) (retry_step r prev retry) r.ref1.pos

theorem notReady_iff (buf : List Nat) :
    is_status_report_not_ready buf = true ↔
      (buf.getD 0 0 = 4 ∧ buf.getD 1 0 = 56 ∧
        ∀ i, 2 ≤ i → i < 59 → buf.getD i 0 = 0) := by
  unfold is_status_report_not_ready
  rw [show LEN_STATUS_REPORT - 5 - 2 = 57 from rfl]
  constructor
  · intro htrue
    by_cases hc : (buf.getD 0 0 != CMD_STATUS_REPORT
        || buf.getD 1 0 != NRB_STATUS_REPORT) = true
    · rw [if_pos hc] at htrue
      simp at htrue
    · rw [if_neg hc] at htrue
      rw [Bool.or_eq_true, not_or] at hc
      obtain ⟨hc0, hc1⟩ := hc
      rw [bne_iff_ne, not_not] at hc0 hc1
      refine ⟨hc0, hc1, ?_⟩
      intro i h2 h59
      have hm := List.all_eq_true.mp htrue i (by rw [List.mem_range'_1]; omega)
      exact eq_of_beq hm
  · rintro ⟨h0, h1, hall⟩
    rw [if_neg (by rw [h0, h1]; decide)]
    apply List.all_eq_true.mpr
    intro i hi
    rw [List.mem_range'_1] at hi
    have hz := hall i (by omega) (by omega)
    rw [hz]
    rfl

/-- Claim C1: for every 64-byte input buffer whose byte 0 does not equal
the status-report command id (4), the fetch-and-decode pipeline fails
with a protocol-mismatch error and no StatusReport is produced; the
pipeline is a pure function of the buffer (it is a Lean function). -/
theorem C1_mismatch_fails_decode (buf : List Nat) (_h : buf.length = 64)
    (h0 : buf.getD 0 0 ≠ CMD_STATUS_REPORT) :
    get_status_and_decode buf = .error .protocolMismatch := by
  unfold get_status_and_decode get_status_report
  rw [if_neg (fun hbe => h0 (eq_of_beq hbe))]

/-- Witness for C1 at the all-zero 64-byte buffer, whose byte 0 is 0. -/
theorem C1_witness :
    get_status_and_decode (List.replicate 64 0) = .error .protocolMismatch :=
  C1_mismatch_fails_decode (List.replicate 64 0) (by decide) (by decide)

/-- Claim C2, counterexample: on the 64-byte buffer whose byte i is i,
the decoder yields handset2 = 44 * 256 + 43 (bytes 43 and 44 swapped) and
ref6, ref7, ref8 positions from byte pairs (45, 46), (49, 50), (53, 54),
not the values the claimed offsets (handset2 from bytes 44 and 45, ref6
at 46 to 49, ref7 at 50 to 53, ref8 at 54 to 57) would give. -/
theorem C2_counterexample :
    ((StatusReport.from_buf (List.range 64)).map fun r =>
        (r.handset2, r.ref6.pos, r.ref7.pos, r.ref8.pos))
      = some (44 * 256 + 43, 46 * 256 + 45, 50 * 256 + 49, 54 * 256 + 53) ∧
    ((44 * 256 + 43, 46 * 256 + 45, 50 * 256 + 49, 54 * 256 + 53) :
        Nat × Nat × Nat × Nat) ≠
      (45 * 256 + 44, 47 * 256 + 46, 51 * 256 + 50, 55 * 256 + 54) := by
  constructor
  · rw [from_buf_eq (List.range 64) (by decide)]
    decide
  · decide

/-- Claim C2 as amended: for every 64-byte buffer the decoder extracts
diagnostic from bytes 32 to 39, undefined1 from bytes 40 to 41, handset1
as the byte swap of bytes 42 and 43, handset2 as the byte swap of bytes
43 and 44 (one byte earlier than the spec's layout, overlapping
handset1), and the ref6, ref7, ref8 samples from offsets 45 to 48, 49 to
52 and 53 to 56 (one byte earlier than the spec's layout). -/
theorem C2_field_layout (buf : List Nat) (h : buf.length = 64) :
    fieldLayoutOk buf :=
  ⟨reportOf buf, from_buf_eq buf h, rfl, rfl, rfl, rfl, rfl, rfl, rfl⟩

/-- Witness for C2 at the 64-byte buffer whose byte i is i. -/
theorem C2_witness : fieldLayoutOk (List.range 64) :=
  C2_field_layout (List.range 64) (by decide)

/-- Claim C3, counterexample: with target 100 and three polls that all
report ref1 position exactly 100 (and ref1 counter 0), the loop is still
running after maxRetry = 3 iterations: the first iteration resets the
retry counter (distance 100 and delta 100 both exceed epsilon and the
position differs from prev_height = 0), so three polls only bring the
counter down to 1. -/
theorem C3_counterexample :
    move 100 constSends (List.replicate 3 (mkReport 100 0)) = none := by
  decide

/-- Claim C3 as amended: if every status poll during move reports ref1
position equal to the target exactly, the loop terminates within
maxRetry + 1 = 4 iterations and move returns true (the first poll may
reset the retry counter because prev_height starts at 0 and the device
counter is unconstrained; every later poll repeats the previous position
and decrements it). -/
theorem C3_settles_within_four (target : Nat) (sends : Nat → Nat)
    (polls : List StatusReport) (hall : ∀ r ∈ polls, r.ref1.pos = target)
    (hlen : 4 ≤ polls.length) :
    move target sends polls = some true := by
  rcases polls with _ | ⟨a, rest⟩
  · simp at hlen
  · have ha : a.ref1.pos = target := hall a (by simp)
    have hrest : 3 ≤ rest.length := by simp at hlen; omega
    have hstep : 1 ≤ retry_step a 0 3 ∧ retry_step a 0 3 ≤ 3 := by
      unfold retry_step; split <;> omega
    unfold move
    simp only [move_loop]
    rw [if_neg (by simp only [beq_iff_eq]; omega)]
    rw [ha]
    exact move_loop_settled target sends rest (0 + 1) (retry_step a 0 3) hstep.1
      (le_trans hstep.2 hrest) (fun r hr => hall r (by simp [hr]))

/-- Witness for C3 at target 0 with four polls all reporting position 0. -/
theorem C3_witness :
    move 0 constSends (List.replicate 4 (mkReport 0 0)) = some true :=
  C3_settles_within_four 0 constSends (List.replicate 4 (mkReport 0 0))
    (by decide) (by decide)

/-- Claim C4: an iteration whose settled test fails (device tracking
error above epsilon, position delta above epsilon and position different
from the previous one) resets the retry counter to max_retry = 3; hence
under sustained movement of that kind the counter never reaches 0 and
the loop does not terminate (it exhausts any finite poll stream). -/
theorem C4_sustained_movement_no_exit :
    (∀ (r : StatusReport) (prev retry : Nat),
      13 < ((r.ref1cnt : Int) - (r.ref1.pos : Int)).natAbs →
      13 < ((prev : Int) - (r.ref1.pos : Int)).natAbs →
      r.ref1.pos ≠ prev →
      retry_step r prev retry = 3) ∧
    (∀ (target : Nat) (sends : Nat → Nat) (polls : List StatusReport),
      sustained_movement 0 polls = true →
      move target sends polls = none) := by
  constructor
  · intro r prev retry h1 h2 h3
    unfold retry_step
    rw [if_neg (by
      simp only [Bool.or_eq_true, decide_eq_true_eq, beq_iff_eq, not_or]
      exact ⟨⟨by omega, by omega⟩, fun e => h3 e.symm⟩)]
  · intro target sends polls hs
    exact move_loop_sustained target sends polls 0 0 3 hs

/-- Witness for C4: a report with position 30 and counter 100 seen from
prev_height 0 resets the retry counter, and a two-poll stream with
sustained movement (positions 30 then 60, counters 100 then 200) leaves
the loop still running. -/
theorem C4_witness :
    retry_step (mkReport 30 100) 0 3 = 3 ∧
    move 0 constSends [mkReport 30 100, mkReport 60 200] = none :=
  ⟨C4_sustained_movement_no_exit.1 (mkReport 30 100) 0 3
      (by decide) (by decide) (by decide),
   C4_sustained_movement_no_exit.2 0 constSends
      [mkReport 30 100, mkReport 60 200] (by decide)⟩

/-- Claim C5: every 16-bit field decoded from two encoded bytes (the ref1
to ref8 positions and the ref1cnt to ref4cnt counters) is obtained by
concatenating the second encoded byte's hex digits before the first and
parsing base 16; in particular the hex-pair string 3412 decodes to
0x1234. -/
theorem C5_byte_swap_rule :
    (∀ buf, buf.length = 64 → swapRuleOk buf) ∧
    (StatusPositionSpeed.from_buf [3, 4, 1, 2, 0, 0, 0, 0]).map (fun s => s.pos)
      = some 0x1234 := by
  constructor
  · intro buf h
    exact ⟨reportOf buf, from_buf_eq buf h,
      (parse_hex_pair _ _).symm, (parse_hex_pair _ _).symm, (parse_hex_pair _ _).symm,
      (parse_hex_pair _ _).symm, (parse_hex_pair _ _).symm, (parse_hex_pair _ _).symm,
      (parse_hex_pair _ _).symm, (parse_hex_pair _ _).symm, (parse_hex_pair _ _).symm,
      (parse_hex_pair _ _).symm, (parse_hex_pair _ _).symm, (parse_hex_pair _ _).symm⟩
  · decide

/-- Witness for C5 at the 64-byte buffer whose byte i is i. -/
theorem C5_witness : swapRuleOk (List.range 64) :=
  C5_byte_swap_rule.1 (List.range 64) (by decide)

/-- Claim C6: on a 64-byte buffer the not-ready signature test returns
true exactly when byte 0 is 4, byte 1 is 56 and every byte at indices 2
through 58 is zero, and setting any single byte of that range to a
non-zero value makes it return false. -/
theorem C6_not_ready_signature (buf : List Nat) (h : buf.length = 64) :
    notReadySignatureOk buf := by
  refine ⟨notReady_iff buf, ?_⟩
  intro i v h2 h59 hv
  cases hb : is_status_report_not_ready (buf.set i v) with
  | false => rfl
  | true =>
      exfalso
      obtain ⟨_, _, hzero⟩ := (notReady_iff (buf.set i v)).mp hb
      have hset : (buf.set i v).getD i 0 = v := by
        simp [List.getD_eq_getElem?_getD, List.getElem?_set_self,
          show i < buf.length from by omega]
      exact hv (hset.symm.trans (hzero i h2 h59))

/-- Witness for C6 at the buffer 4, 56 followed by 62 zero bytes. -/
theorem C6_witness : notReadySignatureOk (4 :: 56 :: List.replicate 62 0) :=
  C6_not_ready_signature (4 :: 56 :: List.replicate 62 0) (by decide)

/-- Claim C7: the valid-flag word is decoded MSB first: word 0x8000
(hex digits 8, 0, 0, 0) sets only the first named flag
ID00_Ref1_pos_stat_speed and word 0x0000 sets all sixteen flags false. -/
theorem C7_valid_flags_msb_first :
    ValidFlags.from_buf [8, 0, 0, 0] = some
      { ID00_Ref1_pos_stat_speed := true
        ID01_Ref2_pos_stat_speed := false
        ID02_Ref3_pos_stat_speed := false
        ID03_Ref4_pos_stat_speed := false
        ID10_Ref1_controlInput := false
        ID11_Ref2_controlInput := false
        ID12_Ref3_controlInput := false
        ID13_Ref4_controlInput := false
        ID04_Ref5_pos_stat_speed := false
        ID28_Diagnostic := false
        ID05_Ref6_pos_stat_speed := false
        ID37_Handset1command := false
        ID38_Handset2command := false
        ID06_Ref7_pos_stat_speed := false
        ID07_Ref8_pos_stat_speed := false
        unknown := false } ∧
    ValidFlags.from_buf [0, 0, 0, 0] = some
      { ID00_Ref1_pos_stat_speed := false
        ID01_Ref2_pos_stat_speed := false
        ID02_Ref3_pos_stat_speed := false
        ID03_Ref4_pos_stat_speed := false
        ID10_Ref1_controlInput := false
        ID11_Ref2_controlInput := false
        ID12_Ref3_controlInput := false
        ID13_Ref4_controlInput := false
        ID04_Ref5_pos_stat_speed := false
        ID28_Diagnostic := false
        ID05_Ref6_pos_stat_speed := false
        ID37_Handset1command := false
        ID38_Handset2command := false
        ID06_Ref7_pos_stat_speed := false
        ID07_Ref8_pos_stat_speed := false
        unknown := false } := by
  decide

/-- Claim C8: get_height performs a single status fetch and decode and
returns the pair of the raw ref1 position and that position divided by
98 (float division modelled exactly); with decoded position 4900 the
result is the pair (4900, 50). -/
theorem C8_height_pair (buf : List Nat) (r : StatusReport)
    (h : get_status_and_decode buf = .ok r) :
    get_height buf = .ok (r.ref1.pos, (r.ref1.pos : ℚ) / 98) ∧
    (r.ref1.pos = 4900 → get_height buf = .ok (4900, 50)) := by
  have hg : get_height buf = .ok (r.ref1.pos, (r.ref1.pos : ℚ) / 98) := by
    unfold get_height
    rw [h]
  refine ⟨hg, fun hp => ?_⟩
  rw [hg, hp]
  norm_num

/-- Witness for C8 at a concrete 64-byte response whose decoded ref1
position is 4900. -/
theorem C8_witness : get_height heightBuf = .ok (4900, 50) :=
  (C8_height_pair heightBuf (reportOf heightBuf) (by rfl)).2 (by rfl)

/-- Claim C9 (implicit): StatusReport.from_buf is total on 64-byte
buffers: whatever the byte values (byte 0 included), it returns the
fully populated report reportOf buf and no int or slice step fails. -/
theorem C9_decoder_total (buf : List Nat) (h : buf.length = 64)
    (_hbytes : ∀ b ∈ buf, b < 256) :
    StatusReport.from_buf buf = some (reportOf buf) :=
  from_buf_eq buf h

/-- Witness for C9 at the all-zero 64-byte buffer. -/
theorem C9_witness :
    StatusReport.from_buf (List.replicate 64 0)
      = some (reportOf (List.replicate 64 0)) :=
  C9_decoder_total (List.replicate 64 0) (by decide) (by decide)

/-- Claim C10 (implicit): the move loop discards the transferred-byte
counts of the move commands: two runs over the same decoded report
stream but different transfer-count streams perform the same iterations
(the loop state evolution is identical for any iteration index, retry
count and previous position) and return the same result. -/
theorem C10_transfer_counts_ignored (target : Nat) (polls : List StatusReport)
    (s1 s2 : Nat → Nat) :
    move target s1 polls = move target s2 polls ∧
    ∀ i1 i2 retry prev,
      move_loop target s1 polls i1 retry prev
        = move_loop target s2 polls i2 retry prev :=
  ⟨move_loop_sends_irrel target s1 s2 polls 0 0 3 0,
   fun i1 i2 retry prev => move_loop_sends_irrel target s1 s2 polls i1 i2 retry prev⟩
